import Mathlib

/-!
A shallow embedding of `curiefense/src/session.rs` (the session lifecycle
manager of the curiefense request-inspection engine) together with proofs
about its operations.

The Rust module keeps four process-wide stores keyed by a session `Uuid`
(`RAW`, `RINFOS`, `TAGS`, `SECURITYPOLICY`).  Here the stores are modelled
as association lists bundled in a `SessionState` record, and each public
operation becomes a function `... → SessionState → Except SessionError α ×
SessionState` (state passing replaces the global `RwLock`ed maps; lock
poisoning is a concurrency artifact that has no counterpart in this
sequential model).  External collaborators (policy matcher, tagging engine,
rate limiter, ACL evaluator, content filter, flow checker) are passed as
function arguments, mirroring the delegation in the source.
-/

set_option autoImplicit false

namespace Curiefense

/-! ## Association-list primitives, modelling `HashMap` operations -/

/-- First-match lookup, modelling `HashMap::get` (keys are unique in the
real map, so first-match agrees with it). -/
def alookup {κ α : Type} [DecidableEq κ] (k : κ) : List (κ × α) → Option α
  | [] => none
  | (k', v) :: rest => if k' = k then some v else alookup k rest

/-- Replace-or-append update, modelling `HashMap::insert`. -/
def aset {κ α : Type} [DecidableEq κ] (k : κ) (v : α) : List (κ × α) → List (κ × α)
  | [] => [(k, v)]
  | (k', v') :: rest => if k' = k then (k, v) :: rest else (k', v') :: aset k v rest

/-- Removal of every binding of a key, modelling `HashMap::remove`. -/
def aremove {κ α : Type} [DecidableEq κ] (k : κ) : List (κ × α) → List (κ × α)
  | [] => []
  | (k', v) :: rest => if k' = k then aremove k rest else (k', v) :: aremove k rest

theorem alookup_aset_self {κ α : Type} [DecidableEq κ] (k : κ) (v : α)
    (l : List (κ × α)) : alookup k (aset k v l) = some v := by
  induction l with
  | nil => simp [alookup, aset]
  | cons hd tl ih =>
    by_cases h : hd.1 = k <;> simp [alookup, aset, h, ih]

theorem alookup_aset_ne {κ α : Type} [DecidableEq κ] {k k' : κ} (v : α)
    (l : List (κ × α)) (h : k' ≠ k) :
    alookup k' (aset k v l) = alookup k' l := by
  induction l with
  | nil => simp [alookup, aset, Ne.symm h]
  | cons hd tl ih =>
    by_cases hk : hd.1 = k
    · simp [alookup, aset, hk, Ne.symm h]
    · simp [alookup, aset, hk, ih]

theorem alookup_aset {κ α : Type} [DecidableEq κ] (k' k : κ) (v : α)
    (l : List (κ × α)) :
    alookup k' (aset k v l) = if k' = k then some v else alookup k' l := by
  by_cases h : k' = k
  · subst h; simp [alookup_aset_self]
  · simp [h, alookup_aset_ne v l h]

theorem alookup_aremove_self {κ α : Type} [DecidableEq κ] (k : κ)
    (l : List (κ × α)) : alookup k (aremove k l) = none := by
  induction l with
  | nil => simp [alookup, aremove]
  | cons hd tl ih =>
    by_cases h : hd.1 = k <;> simp [alookup, aremove, h, ih]

theorem alookup_aremove_ne {κ α : Type} [DecidableEq κ] {k k' : κ}
    (l : List (κ × α)) (h : k' ≠ k) :
    alookup k' (aremove k l) = alookup k' l := by
  induction l with
  | nil => simp [aremove]
  | cons hd tl ih =>
    by_cases hk : hd.1 = k
    · simp [alookup, aremove, hk, ih, Ne.symm h]
    · simp [alookup, aremove, hk, ih]

theorem aremove_aremove {κ α : Type} [DecidableEq κ] (k : κ)
    (l : List (κ × α)) : aremove k (aremove k l) = aremove k l := by
  induction l with
  | nil => simp [aremove]
  | cons hd tl ih =>
    by_cases h : hd.1 = k <;> simp [aremove, h, ih]

/-! ## Session identifiers

Modelled from the spec: a `SessionId` is a "128-bit random identifier,
textually encoded" (the Rust code uses the external `uuid` crate:
`Uuid::new_v4`, `str::parse::<Uuid>` and `Display`).  The identifier value
is modelled as a natural number, its textual encoding as lowercase
hexadecimal; randomness is modelled by passing the fresh identifier to
`session_init` explicitly. -/
abbrev Uuid := Nat

/-- Hex digit character for a value below 16 (lowercase). -/
def hexChar (n : Nat) : Char :=
  if n < 10 then Char.ofNat (48 + n) else Char.ofNat (87 + n)

/-- Value of a hex digit character, `none` when the character is not a
lowercase hex digit. -/
def hexVal (c : Char) : Option Nat :=
  if 48 ≤ c.toNat ∧ c.toNat ≤ 57 then some (c.toNat - 48)
  else if 97 ≤ c.toNat ∧ c.toNat ≤ 102 then some (c.toNat - 87)
  else none

/-- Big-endian hex digits of `n`, prepended to `acc`; fuel-driven so that
the definition reduces by `rfl`/`decide` (any `fuel > n` is enough). -/
def toHexAux : Nat → Nat → List Char → List Char
  | 0, _, acc => acc
  | fuel + 1, n, acc =>
    let d := hexChar (n % 16)
    if n < 16 then d :: acc else toHexAux fuel (n / 16) (d :: acc)

/-- Textual encoding of a session identifier (models `format!("{}", uuid)`). -/
def uuidToString (u : Uuid) : String := String.mk (toHexAux (u + 1) u [])

/-- Left-to-right hex accumulator. -/
def hexToNatAux : List Char → Nat → Option Nat
  | [], acc => some acc
  | c :: cs, acc =>
    match hexVal c with
    | none => none
    | some d => hexToNatAux cs (16 * acc + d)

/-- Parsing of a session identifier string (models
`session_id.parse::<Uuid>()`); fails on the empty string and on any
non-hex character. -/
def uuidParse (s : String) : Option Uuid :=
  match s.data with
  | [] => none
  | c :: cs => hexToNatAux (c :: cs) 0

/-- The numeric value denoted by the digits of `a` followed by the digits
of `n` (specification device for the round-trip proof). -/
def appendVal : Nat → Nat → Nat → Nat
  | 0, a, _ => a
  | fuel + 1, a, n =>
    if n < 16 then 16 * a + n else 16 * appendVal fuel a (n / 16) + n % 16

theorem hexVal_hexChar : ∀ d, d < 16 → hexVal (hexChar d) = some d := by decide

theorem toHexAux_ne_nil (fuel n : Nat) (acc : List Char)
    (h : 0 < fuel ∨ acc ≠ []) : toHexAux fuel n acc ≠ [] := by
  induction fuel generalizing n acc with
  | zero =>
    rcases h with h | h
    · exact absurd h (by omega)
    · simpa [toHexAux] using h
  | succ fuel ih =>
    by_cases hn : n < 16
    · simp [toHexAux, hn]
    · simpa [toHexAux, hn] using ih (n / 16) (hexChar (n % 16) :: acc) (Or.inr (by simp))

theorem hexToNatAux_toHexAux (fuel : Nat) :
    ∀ n acc a, n < fuel →
      hexToNatAux (toHexAux fuel n acc) a = hexToNatAux acc (appendVal fuel a n) := by
  induction fuel with
  | zero => intro n acc a h; exact absurd h (by omega)
  | succ fuel ih =>
    intro n acc a h
    by_cases hn : n < 16
    · have hd : hexVal (hexChar n) = some n := hexVal_hexChar n hn
      have hmod : n % 16 = n := Nat.mod_eq_of_lt hn
      simp [toHexAux, hn, appendVal, hexToNatAux, hd, hmod]
    · have hlt : n / 16 < fuel := by
        have h1 : n / 16 < n := Nat.div_lt_self (by omega) (by omega)
        omega
      have hd : hexVal (hexChar (n % 16)) = some (n % 16) :=
        hexVal_hexChar _ (Nat.mod_lt _ (by omega))
      simp [toHexAux, hn, appendVal, ih (n / 16) _ a hlt, hexToNatAux, hd]

theorem appendVal_zero (fuel : Nat) : ∀ n, n < fuel → appendVal fuel 0 n = n := by
  induction fuel with
  | zero => intro n h; exact absurd h (by omega)
  | succ fuel ih =>
    intro n h
    by_cases hn : n < 16
    · simp [appendVal, hn]
    · have hlt : n / 16 < fuel := by
        have h1 : n / 16 < n := Nat.div_lt_self (by omega) (by omega)
        omega
      have := ih (n / 16) hlt
      simp [appendVal, hn, this]
      omega

/-- The textual encoding of a session identifier parses back to it (the
code relies on this: `session_init` hands out `format!("{}", uuid)` and
every other operation re-parses it). -/
theorem uuidParse_uuidToString (u : Uuid) : uuidParse (uuidToString u) = some u := by
  have hne : toHexAux (u + 1) u [] ≠ [] :=
    toHexAux_ne_nil (u + 1) u [] (Or.inl (by omega))
  have hkey : hexToNatAux (toHexAux (u + 1) u []) 0 = some u := by
    rw [hexToNatAux_toHexAux (u + 1) u [] 0 (by omega)]
    simp [hexToNatAux, appendVal_zero (u + 1) u (by omega)]
  unfold uuidToString uuidParse
  cases hl : toHexAux (u + 1) u [] with
  | nil => exact absurd hl hne
  | cons c cs => simpa [hl] using hkey

/-! ## JSON values

Model of `serde_json::Value`.  Objects are association lists of fields
(the real `Map<String, Value>` has unique keys; first-match lookup agrees
with it on such values). -/

inductive Json where
  | null
  | bool (b : Bool)
  | num (n : Int)
  | str (s : String)
  | arr (elems : List Json)
  | obj (fields : List (String × Json))

/-- Field access on a JSON value, modelling `Value::get` (which returns
`None` on non-objects). -/
def Json.get (j : Json) (k : String) : Option Json :=
  match j with
  | .obj fields => alookup k fields
  | _ => none

/-! ## Tag sets

Modelled from the spec: the external `crate::interface::Tags` type, "a set
of qualified string names" accumulated across stages (§3 TagSet, §9).  The
set is modelled as an insertion-ordered duplicate-free list of names; the
iteration order of the real hash set is unspecified, the list order is the
model's stand-in for it. -/
structure Tags where
  toList : List String
deriving DecidableEq

/-- Modelled from the spec: inserting a tag name into the set. -/
def Tags.insert (t : Tags) (s : String) : Tags :=
  if s ∈ t.toList then t else ⟨t.toList ++ [s]⟩

/-- Modelled from the spec: `Tags::from_slice`, building the set from a
list of names. -/
def Tags.from_slice (l : List String) : Tags := l.foldl Tags.insert ⟨[]⟩

/-- Modelled from the spec: `Tags::extend`, additive union of tag sets. -/
def Tags.extend (t other : Tags) : Tags := other.toList.foldl Tags.insert t

/-- Modelled from the spec (§9): `Tags::insert_qualified` inserts the name
`prefix:value`. -/
def Tags.insert_qualified (t : Tags) (p v : String) : Tags :=
  Tags.insert t (p ++ ":" ++ v)

/-- Modelled from the spec: `Tags::as_hash_ref` exposes the underlying set
of names for iteration. -/
def Tags.as_hash_ref (t : Tags) : List String := t.toList

/-! ## Request data

Modelled from the spec: the types of `crate::requestfields` / `crate::utils`
(external to the excerpt), with exactly the fields the session module
reads or builds. -/

/-- Modelled from the spec: `RequestField`, a "field mapping" of names to
string values (headers, cookies, args). -/
structure RequestField where
  fields : List (String × String)
deriving DecidableEq

/-- Modelled from the spec: `RequestField::get`. -/
def RequestField.get (rf : RequestField) (k : String) : Option String :=
  alookup k rf.fields

/-- Modelled from the spec: the geolocation record produced by the
best-effort `find_geoip` collaborator. -/
structure GeoIp where
  ip : String
deriving DecidableEq

/-- Modelled from the spec: geolocation lookup collaborator ("IP →
location record (best-effort; failure yields an empty/unknown record,
never fails the core operation)"). -/
def find_geoip (ip : String) : GeoIp := ⟨ip⟩

/-- Modelled from the spec: `crate::utils::RequestMeta`. -/
structure RequestMeta where
  authority : Option String
  method : String
  path : String
  extra : List (String × String)
deriving DecidableEq

/-- Modelled from the spec: `crate::utils::QueryInfo`. -/
structure QueryInfo where
  qpath : String
  query : String
  uri : Option String
  args : RequestField
deriving DecidableEq

/-- Modelled from the spec: `crate::utils::RInfo`. -/
structure RInfo where
  meta : RequestMeta
  geoip : GeoIp
  qinfo : QueryInfo
  host : String
deriving DecidableEq

/-- Modelled from the spec: `crate::utils::RequestInfo`. -/
structure RequestInfo where
  cookies : RequestField
  headers : RequestField
  rinfo : RInfo
deriving DecidableEq

/-! ## The encoded request document (`JRequestMap` / `JAttrs`) -/

/-- json representation of the useful fields in attrs. -/
structure JAttrs where
  path : String
  method : String
  ip : String
  query : String
  authority : Option String
  uri : String
  tags : List (String × Json)

/-- json representation of the useful fields in the request map. -/
structure JRequestMap where
  headers : RequestField
  cookies : RequestField
  args : RequestField
  attrs : JAttrs

/-- Entry-wise deserialization of a string-valued JSON object. -/
def parseFieldEntries : List (String × Json) → Option (List (String × String))
  | [] => some []
  | (k, v) :: rest =>
    match v with
    | .str s => (parseFieldEntries rest).map (fun r => (k, s) :: r)
    | _ => none

/-- Deserialization of a `RequestField` from a JSON object whose values
are strings (models the serde derive; any non-string value fails). -/
def parseRequestField (j : Json) : Option RequestField :=
  match j with
  | .obj fields => (parseFieldEntries fields).map RequestField.mk
  | _ => none

/-- Deserialization of a required `String` field. -/
def parseString (j : Json) : Option String :=
  match j with
  | .str s => some s
  | _ => none

/-- Deserialization of an `Option<String>` field: an absent key or `null`
becomes `none`, a string becomes `some`, anything else fails. -/
def parseOptString (j : Option Json) : Option (Option String) :=
  match j with
  | none => some none
  | some .null => some none
  | some (.str s) => some (some s)
  | some _ => none

/-- Deserialization of `JAttrs` (models `serde_json::from_value` on the
`attrs` substructure; missing required fields fail). -/
def parseJAttrs (j : Json) : Option JAttrs :=
  match j with
  | .obj fields => do
    let path ← (alookup "path" fields).bind parseString
    let method ← (alookup "method" fields).bind parseString
    let ip ← (alookup "ip" fields).bind parseString
    let query ← (alookup "query" fields).bind parseString
    let authority ← parseOptString (alookup "authority" fields)
    let uri ← (alookup "uri" fields).bind parseString
    let tags ← match alookup "tags" fields with
      | some (.obj tfields) => some tfields
      | _ => none
    pure { path, method, ip, query, authority, uri, tags }
  | _ => none

/-- Deserialization of a `JRequestMap` (models `serde_json::from_value`;
unknown extra fields are ignored, missing required fields fail). -/
def parseJRequestMap (j : Json) : Option JRequestMap :=
  match j with
  | .obj fields => do
    let headers ← (alookup "headers" fields).bind parseRequestField
    let cookies ← (alookup "cookies" fields).bind parseRequestField
    let args ← (alookup "args" fields).bind parseRequestField
    let attrs ← (alookup "attrs" fields).bind parseJAttrs
    pure { headers, cookies, args, attrs }
  | _ => none

/-- `JRequestMap::into_request_info`: derives the typed request context
and the initial tag set from the parsed document. -/
def JRequestMap.into_request_info (jm : JRequestMap) : RequestInfo × Tags :=
  let host : String :=
    ((jm.headers.get "host").or jm.attrs.authority).getD "unknown"
  let geoip := find_geoip jm.attrs.ip
  let meta : RequestMeta :=
    { authority := jm.attrs.authority
      method := jm.attrs.method
      path := jm.attrs.uri
      extra := [] }
  let qinfo : QueryInfo :=
    { qpath := jm.attrs.path
      query := jm.attrs.query
      uri := some jm.attrs.uri
      args := jm.args }
  let vtags : List String := jm.attrs.tags.map (fun kv => kv.1)
  ({ cookies := jm.cookies
     headers := jm.headers
     rinfo := { meta, geoip, qinfo, host } },
   Tags.from_slice vtags)

/-! ## Security policies and decisions

Modelled from the spec: the configuration types of
`crate::config::hostmap` and the decision types of `crate::interface` /
`crate::acl`, restricted to the fields the session module reads. -/

/-- Modelled from the spec: an ACL profile reference (id and name). -/
structure AclProfile where
  id : String
  name : String
deriving DecidableEq

/-- Modelled from the spec: a content-filter profile reference. -/
structure ContentFilterProfile where
  id : String
  name : String
deriving DecidableEq

/-- Modelled from the spec: a rate-limit rule reference. -/
structure Limit where
  id : String
deriving DecidableEq

/-- Modelled from the spec: `crate::config::hostmap::SecurityPolicy`
(policy name, ACL profile, content-filter profile, activation flags,
rate-limit rule references). -/
structure SecurityPolicy where
  name : String
  acl_profile : AclProfile
  content_filter_profile : ContentFilterProfile
  acl_active : Bool
  content_filter_active : Bool
  limits : List Limit
deriving DecidableEq

/-- Modelled from the spec: a concrete blocking/challenge response. -/
structure Action where
  reason : String
deriving DecidableEq

/-- Modelled from the spec: the decision type returned by the limiter and
flow collaborators before challenge-collapsing. -/
inductive SimpleDecision where
  | pass
  | action (a : Action)
deriving DecidableEq

/-- Modelled from the spec: `crate::interface::Decision` ("pass" or a
concrete action). -/
inductive Decision where
  | pass
  | action (a : Action)
deriving DecidableEq

/-- Modelled from the spec: challenge variants collapse to the plain
action for this API. -/
def SimpleDecision.into_decision_no_challenge : SimpleDecision → Decision
  | .pass => .pass
  | .action a => .action a

/-- Modelled from the spec: `crate::acl::AclResult`
(allow / deny / force-deny with reason). -/
inductive AclResult where
  | allow
  | deny
  | forceDeny (reason : String)
deriving DecidableEq

/-! ## Errors

The Rust module reports every failure as an `anyhow` error with a
distinctive message; each distinct message becomes one constructor. -/

inductive SessionError where
  /-- `session_id.parse::<Uuid>()` failed. -/
  | malformedId
  /-- `serde_json::from_str` / `serde_json::from_value` failed in
  `session_init`. -/
  | malformedDocument
  /-- "Unknown session id" (a store lookup found no entry for the id). -/
  | unknownSession
  /-- "Could not get RAW {uuid}" (no `RAW` entry for the id). -/
  | rawMissing (u : Uuid)
  /-- "No attrs field" in `update_tags`. -/
  | noAttrs
  /-- "Attrs was not an object" in `update_tags`. -/
  | attrsNotObject
  /-- "No matching Security Policy". -/
  | noMatchingPolicy
  /-- An error returned by an external collaborator (`flow_check`). -/
  | collaboratorFailure
deriving DecidableEq

/-- Whether an error denotes the spec taxonomy's UnknownSession condition
("well-formed id, no matching entry"): both the "Unknown session id"
message of the guarded accessors and the "Could not get RAW" message of
`session_serialize_request_map` arise exactly when a well-formed id has no
entry in the consulted store. -/
def SessionError.is_unknown_session : SessionError → Bool
  | .unknownSession => true
  | .rawMissing _ => true
  | _ => false

/-! ## The session stores -/

/-- The four process-wide stores of the module (`RAW`, `RINFOS`, `TAGS`,
`SECURITYPOLICY`), each a map keyed by the session id. -/
structure SessionState where
  raw : List (Uuid × Json)
  rinfos : List (Uuid × RequestInfo)
  tags : List (Uuid × Tags)
  securitypolicy : List (Uuid × SecurityPolicy)

/-- The stores at process start: all empty. -/
def SessionState.empty : SessionState := ⟨[], [], [], []⟩

/-! ## Guarded accessors

`with_config` is not modelled separately: the configuration read lock
never fails in this sequential model and the configuration contents only
flow into the external collaborators, which are passed as already-applied
functions. -/

/-- `with_request_info`: looks up the id in `RINFOS`, "Unknown session id"
if absent. -/
def with_request_info {α : Type} (uuid : Uuid) (st : SessionState)
    (f : RequestInfo → Except SessionError α) : Except SessionError α :=
  match alookup uuid st.rinfos with
  | none => .error .unknownSession
  | some rinfo => f rinfo

/-- `with_securitypolicy`: looks up the id in `SECURITYPOLICY`, "Unknown
session id" if absent. -/
def with_securitypolicy {α : Type} (uuid : Uuid) (st : SessionState)
    (f : SecurityPolicy → Except SessionError α) : Except SessionError α :=
  match alookup uuid st.securitypolicy with
  | none => .error .unknownSession
  | some pol => f pol

/-- `with_tags`: looks up the id in `TAGS`, "Unknown session id" if
absent. -/
def with_tags {α : Type} (uuid : Uuid) (st : SessionState)
    (f : Tags → Except SessionError α) : Except SessionError α :=
  match alookup uuid st.tags with
  | none => .error .unknownSession
  | some tag => f tag

/-- `with_tags_mut`: write-locks `TAGS` and hands the entry to `f`.  In
Rust `f` mutates through `&mut Tags` and its mutations persist even when
it returns `Err`; here `f` returns the updated tag set alongside its
result and the store is updated with it on every path. -/
def with_tags_mut {α : Type} (uuid : Uuid) (st : SessionState)
    (f : Tags → Except SessionError α × Tags) :
    Except SessionError α × SessionState :=
  match alookup uuid st.tags with
  | none => (.error .unknownSession, st)
  | some tag =>
    let r := f tag
    (r.1, { st with tags := aset uuid r.2 st.tags })

/-! ## Session operations

Each Rust `pub fn` taking `session_id: &str` becomes a function from the
id string and the current state to a result and the next state.  External
collaborators appear as function arguments (already applied to the
process-wide configuration where the source passes `&cfg`). -/

/-- Result plumbing for the tail of an operation: models `let x = expr?;
Ok(f(x))` — an error from the stateful sub-operation propagates, a success
is mapped; the sub-operation's state stands either way. -/
def mapResult {α β : Type} (f : α → β)
    (r : Except SessionError α × SessionState) :
    Except SessionError β × SessionState :=
  match r.1 with
  | .error e => (.error e, r.2)
  | .ok a => (.ok (f a), r.2)

/-- `clean_session`: parses the id and removes its entries from `RINFOS`,
`TAGS` and `SECURITYPOLICY` (not from `RAW`). -/
def clean_session (session_id : String) (st : SessionState) :
    Except SessionError Unit × SessionState :=
  match uuidParse session_id with
  | none => (.error .malformedId, st)
  | some uuid =>
    (.ok (),
     { st with
        rinfos := aremove uuid st.rinfos
        tags := aremove uuid st.tags
        securitypolicy := aremove uuid st.securitypolicy })

/-- `update_tags`: replaces `attrs.tags` in the JSON-encoded request map
by an object mapping every current tag name to `1`. -/
def update_tags (rawjson : Json) (tags : Tags) : Except SessionError Json :=
  let tags_map : List (String × Json) :=
    (Tags.as_hash_ref tags).map (fun k => (k, Json.num 1))
  match rawjson with
  | .obj fields =>
    match alookup "attrs" fields with
    | none => .error .noAttrs
    | some (.obj attrs_o) =>
      .ok (.obj (aset "attrs" (.obj (aset "tags" (.obj tags_map) attrs_o)) fields))
    | some _ => .error .attrsNotObject
  | _ => .error .noAttrs

/-- `session_serialize_request_map`: reads the raw document and the
current tag set, and merges them with `update_tags`. -/
def session_serialize_request_map (session_id : String) (st : SessionState) :
    Except SessionError Json × SessionState :=
  match uuidParse session_id with
  | none => (.error .malformedId, st)
  | some uuid =>
    match alookup uuid st.raw with
    | none => (.error (.rawMissing uuid), st)
    | some raw =>
      match with_tags uuid st (fun tgs => .ok tgs) with
      | .error e => (.error e, st)
      | .ok tags => (update_tags raw tags, st)

/-- `session_init`: parses the encoded request map and inserts the raw
document, the derived request info and the initial tag set under a fresh
id.  The input is `none` when the input string is not valid JSON
(`serde_json::from_str` fails); the fresh id stands for `Uuid::new_v4()`. -/
def session_init (fresh : Uuid) (encoded_request_map : Option Json)
    (st : SessionState) : Except SessionError String × SessionState :=
  match encoded_request_map with
  | none => (.error .malformedDocument, st)
  | some jvalue =>
    match parseJRequestMap jvalue with
    | none => (.error .malformedDocument, st)
    | some jmap =>
      let ri := jmap.into_request_info
      (.ok (uuidToString fresh),
       { st with
          raw := aset fresh jvalue st.raw
          rinfos := aset fresh ri.1 st.rinfos
          tags := aset fresh ri.2 st.tags })

/-- The summary object returned by `session_match_securitypolicy`. -/
structure SessionSecurityPolicy where
  name : String
  acl_profile : String
  content_filter_profile : String
  acl_active : Bool
  content_filter_active : Bool
  limit_ids : List String
  securitypolicy : String
deriving DecidableEq

/-- `session_match_securitypolicy`: reads the request info, delegates to
the external policy matcher, writes the matched policy into
`SECURITYPOLICY`, then writes the six derived tags into `TAGS` and returns
the summary.  The `with_config`/`with_request_info` nesting of the source
is spelled out because its closure also writes the `SECURITYPOLICY`
store. -/
def session_match_securitypolicy
    (matcher : RequestInfo → Option (String × SecurityPolicy))
    (session_id : String) (st : SessionState) :
    Except SessionError SessionSecurityPolicy × SessionState :=
  match uuidParse session_id with
  | none => (.error .malformedId, st)
  | some uuid =>
    match alookup uuid st.rinfos with
    | none => (.error .unknownSession, st)
    | some rinfo =>
      match matcher rinfo with
      | none => (.error .noMatchingPolicy, st)
      | some (hostmap_name, securitypolicy) =>
        let st1 :=
          { st with securitypolicy := aset uuid securitypolicy st.securitypolicy }
        mapResult
          (fun _ =>
            { name := securitypolicy.name
              acl_profile := securitypolicy.acl_profile.id
              content_filter_profile := securitypolicy.content_filter_profile.id
              acl_active := securitypolicy.acl_active
              content_filter_active := securitypolicy.content_filter_active
              limit_ids := securitypolicy.limits.map (fun l => l.id)
              securitypolicy := hostmap_name })
          (with_tags_mut uuid st1 (fun tags =>
            (.ok (),
             ((((((tags.insert_qualified "securitypolicy" hostmap_name
                 ).insert_qualified "securitypolicy-entry" securitypolicy.name
                 ).insert_qualified "aclid" securitypolicy.acl_profile.id
                 ).insert_qualified "aclname" securitypolicy.acl_profile.name
                 ).insert_qualified "contentfilterid" securitypolicy.content_filter_profile.id
                 ).insert_qualified "contentfiltername" securitypolicy.content_filter_profile.name))))

/-- `session_tag_request`: computes new tags via the external tagging
collaborator ("humanity is assumed": the source applies it to `true`, and
the accompanying decision is ignored) and extends the session's tag set. -/
def session_tag_request
    (tagger : RequestInfo → Tags × SimpleDecision)
    (session_id : String) (st : SessionState) :
    Except SessionError Bool × SessionState :=
  match uuidParse session_id with
  | none => (.error .malformedId, st)
  | some uuid =>
    match with_request_info uuid st (fun rinfo => .ok (tagger rinfo)) with
    | .error e => (.error e, st)
    | .ok new_tags =>
      mapResult (fun _ => true)
        (with_tags_mut uuid st (fun tgs => (.ok (), tgs.extend new_tags.1)))

/-- `session_limit_check`: copies the matched policy's limits, then under
the request info, the policy and a mutable tag set, delegates to the
external limiter and collapses its decision. -/
def session_limit_check
    (limiter : String → RequestInfo → List Limit → Tags → SimpleDecision × Tags)
    (session_id : String) (st : SessionState) :
    Except SessionError Decision × SessionState :=
  match uuidParse session_id with
  | none => (.error .malformedId, st)
  | some uuid =>
    match with_securitypolicy uuid st (fun securitypolicy => .ok securitypolicy.limits) with
    | .error e => (.error e, st)
    | .ok limits =>
      match alookup uuid st.rinfos with
      | none => (.error .unknownSession, st)
      | some rinfo =>
        match alookup uuid st.securitypolicy with
        | none => (.error .unknownSession, st)
        | some securitypolicy =>
          mapResult SimpleDecision.into_decision_no_challenge
            (with_tags_mut uuid st (fun tags =>
              let lr := limiter securitypolicy.name rinfo limits tags
              (.ok lr.1, lr.2)))

/-- `session_acl_check`: reads the matched policy and the tag set, and
returns the external ACL evaluator's result unchanged. -/
def session_acl_check
    (check_acl : Tags → AclProfile → AclResult)
    (session_id : String) (st : SessionState) :
    Except SessionError AclResult × SessionState :=
  match uuidParse session_id with
  | none => (.error .malformedId, st)
  | some uuid =>
    (with_securitypolicy uuid st (fun securitypolicy =>
      with_tags uuid st (fun tags =>
        .ok (check_acl tags securitypolicy.acl_profile))), st)

/-- `session_content_filter_check`: reads the request info and the matched
policy, delegates to the external content filter (which captures the
process-wide `HSDB` snapshot) and maps a filter error to a deny action. -/
def session_content_filter_check
    (content_filter : RequestInfo → ContentFilterProfile → Except Action Unit)
    (session_id : String) (st : SessionState) :
    Except SessionError Decision × SessionState :=
  match uuidParse session_id with
  | none => (.error .malformedId, st)
  | some uuid =>
    (with_request_info uuid st (fun rinfo =>
      with_securitypolicy uuid st (fun securitypolicy =>
        .ok (match content_filter rinfo securitypolicy.content_filter_profile with
             | .ok _ => Decision.pass
             | .error rr => Decision.action rr))), st)

/-- `session_flow_check`: under the request info and a mutable tag set,
delegates to the external flow checker (which captures `cfg.flows`); the
collaborator may fail, and its tag mutations persist either way. -/
def session_flow_check
    (flow : RequestInfo → Tags → Except Unit SimpleDecision × Tags)
    (session_id : String) (st : SessionState) :
    Except SessionError Decision × SessionState :=
  match uuidParse session_id with
  | none => (.error .malformedId, st)
  | some uuid =>
    match alookup uuid st.rinfos with
    | none => (.error .unknownSession, st)
    | some rinfo =>
      mapResult SimpleDecision.into_decision_no_challenge
        (with_tags_mut uuid st (fun tags =>
          let fr := flow rinfo tags
          (match fr.1 with
           | .ok d => .ok d
           | .error _ => .error .collaboratorFailure,
           fr.2)))

/-- `init_config`: loads the process-wide configuration; it reads no
session store and writes none. -/
def init_config (st : SessionState) : (Bool × List String) × SessionState :=
  ((true, []), st)

/-! ## Helper lemmas about tag sets and operation frames -/

theorem Tags.mem_insert (ts : Tags) (s t : String) :
    t ∈ (ts.insert s).toList ↔ t ∈ ts.toList ∨ t = s := by
  unfold Tags.insert
  by_cases h : s ∈ ts.toList
  · simp only [h, if_pos]
    exact ⟨Or.inl, fun hh => hh.elim id (fun he => he ▸ h)⟩
  · simp [h, List.mem_append]

theorem Tags.mem_of_mem_insert (ts : Tags) (s t : String)
    (h : t ∈ ts.toList) : t ∈ (ts.insert s).toList :=
  (Tags.mem_insert ts s t).mpr (Or.inl h)

theorem Tags.mem_foldl_insert (l : List String) (ts : Tags) (t : String)
    (h : t ∈ ts.toList) : t ∈ (l.foldl Tags.insert ts).toList := by
  induction l generalizing ts with
  | nil => simpa using h
  | cons hd tl ih =>
    simpa [List.foldl_cons] using ih (ts.insert hd) (Tags.mem_of_mem_insert ts hd t h)

theorem Tags.mem_extend (ts other : Tags) (t : String)
    (h : t ∈ ts.toList) : t ∈ (ts.extend other).toList :=
  Tags.mem_foldl_insert other.toList ts t h

/-- The session `u` currently carries the tag `t`. -/
def hasTag (st : SessionState) (u : Uuid) (t : String) : Prop :=
  ∃ ts, alookup u st.tags = some ts ∧ t ∈ ts.toList

theorem with_tags_mut_hasTag {α : Type} (uuid : Uuid) (st : SessionState)
    (f : Tags → Except SessionError α × Tags)
    (hf : ∀ ts, ∀ x ∈ ts.toList, x ∈ (f ts).2.toList)
    (u : Uuid) (t : String) (h : hasTag st u t) :
    hasTag (with_tags_mut uuid st f).2 u t := by
  cases hl : alookup uuid st.tags with
  | none => simpa [with_tags_mut, hl] using h
  | some ts =>
    obtain ⟨ts0, hts0, hmem⟩ := h
    by_cases he : u = uuid
    · subst he
      have heq : ts0 = ts := by
        rw [hl] at hts0
        exact (Option.some.inj hts0).symm
      subst heq
      exact ⟨(f ts0).2, by simp [with_tags_mut, hl, alookup_aset_self],
        hf ts0 t hmem⟩
    · exact ⟨ts0, by simp [with_tags_mut, hl, alookup_aset_ne _ _ he, hts0], hmem⟩

/-! ## The public operations as a single enumeration

Used to state properties quantified over every operation of the session
API (each constructor carries the operation's arguments, collaborator
functions included). -/

inductive ApiOp where
  | initConfig
  | sessionInit (fresh : Uuid) (input : Option Json)
  | serialize (sid : String)
  | matchPolicy (matcher : RequestInfo → Option (String × SecurityPolicy)) (sid : String)
  | tagRequest (tagger : RequestInfo → Tags × SimpleDecision) (sid : String)
  | limitCheck
      (limiter : String → RequestInfo → List Limit → Tags → SimpleDecision × Tags)
      (sid : String)
  | aclCheck (f : Tags → AclProfile → AclResult) (sid : String)
  | contentFilterCheck
      (f : RequestInfo → ContentFilterProfile → Except Action Unit) (sid : String)
  | flowCheck (f : RequestInfo → Tags → Except Unit SimpleDecision × Tags) (sid : String)
  | cleanSession (sid : String)

/-- The state after running one public operation. -/
def ApiOp.apply : ApiOp → SessionState → SessionState
  | .initConfig, st => (init_config st).2
  | .sessionInit fresh input, st => (session_init fresh input st).2
  | .serialize sid, st => (session_serialize_request_map sid st).2
  | .matchPolicy m sid, st => (session_match_securitypolicy m sid st).2
  | .tagRequest tg sid, st => (session_tag_request tg sid st).2
  | .limitCheck l sid, st => (session_limit_check l sid st).2
  | .aclCheck f sid, st => (session_acl_check f sid st).2
  | .contentFilterCheck f sid, st => (session_content_filter_check f sid st).2
  | .flowCheck f sid, st => (session_flow_check f sid st).2
  | .cleanSession sid, st => (clean_session sid st).2

/-- Whether the operation is the policy-matching stage. -/
def ApiOp.isMatchPolicy : ApiOp → Bool
  | .matchPolicy _ _ => true
  | _ => false

/-! Per-operation frame lemmas: which stores an operation can touch. -/

theorem mapResult_state {α β : Type} (f : α → β)
    (r : Except SessionError α × SessionState) :
    (mapResult f r).2 = r.2 := by
  unfold mapResult
  cases r.1 <;> rfl

theorem serialize_state_eq (sid : String) (st : SessionState) :
    (session_serialize_request_map sid st).2 = st := by
  unfold session_serialize_request_map
  repeat' split
  all_goals rfl

theorem acl_check_state_eq (f : Tags → AclProfile → AclResult)
    (sid : String) (st : SessionState) :
    (session_acl_check f sid st).2 = st := by
  unfold session_acl_check
  repeat' split
  all_goals rfl

theorem content_filter_state_eq
    (f : RequestInfo → ContentFilterProfile → Except Action Unit)
    (sid : String) (st : SessionState) :
    (session_content_filter_check f sid st).2 = st := by
  unfold session_content_filter_check
  repeat' split
  all_goals rfl

theorem with_tags_mut_state {α : Type} (uuid : Uuid) (st : SessionState)
    (f : Tags → Except SessionError α × Tags) :
    (with_tags_mut uuid st f).2.raw = st.raw ∧
    (with_tags_mut uuid st f).2.rinfos = st.rinfos ∧
    (with_tags_mut uuid st f).2.securitypolicy = st.securitypolicy := by
  unfold with_tags_mut
  repeat' split
  all_goals exact ⟨rfl, rfl, rfl⟩

theorem tag_request_state (tg : RequestInfo → Tags × SimpleDecision)
    (sid : String) (st : SessionState) :
    (session_tag_request tg sid st).2.raw = st.raw ∧
    (session_tag_request tg sid st).2.rinfos = st.rinfos ∧
    (session_tag_request tg sid st).2.securitypolicy = st.securitypolicy := by
  unfold session_tag_request
  repeat' split
  all_goals simp only [mapResult_state]
  all_goals first
    | exact ⟨trivial, trivial, trivial⟩
    | exact with_tags_mut_state _ _ _

theorem limit_check_state
    (l : String → RequestInfo → List Limit → Tags → SimpleDecision × Tags)
    (sid : String) (st : SessionState) :
    (session_limit_check l sid st).2.raw = st.raw ∧
    (session_limit_check l sid st).2.rinfos = st.rinfos ∧
    (session_limit_check l sid st).2.securitypolicy = st.securitypolicy := by
  unfold session_limit_check
  repeat' split
  all_goals simp only [mapResult_state]
  all_goals first
    | exact ⟨trivial, trivial, trivial⟩
    | exact with_tags_mut_state _ _ _

theorem flow_check_state
    (f : RequestInfo → Tags → Except Unit SimpleDecision × Tags)
    (sid : String) (st : SessionState) :
    (session_flow_check f sid st).2.raw = st.raw ∧
    (session_flow_check f sid st).2.rinfos = st.rinfos ∧
    (session_flow_check f sid st).2.securitypolicy = st.securitypolicy := by
  unfold session_flow_check
  repeat' split
  all_goals simp only [mapResult_state]
  all_goals first
    | exact ⟨trivial, trivial, trivial⟩
    | exact with_tags_mut_state _ _ _

theorem match_policy_state
    (m : RequestInfo → Option (String × SecurityPolicy))
    (sid : String) (st : SessionState) :
    (session_match_securitypolicy m sid st).2.raw = st.raw ∧
    (session_match_securitypolicy m sid st).2.rinfos = st.rinfos := by
  unfold session_match_securitypolicy
  repeat' split
  all_goals simp only [mapResult_state]
  all_goals first
    | exact ⟨trivial, trivial⟩
    | exact ⟨(with_tags_mut_state _ _ _).1, (with_tags_mut_state _ _ _).2.1⟩

theorem clean_session_state (sid : String) (st : SessionState) :
    (clean_session sid st).2.raw = st.raw := by
  unfold clean_session
  repeat' split
  all_goals rfl

theorem session_init_state (fresh : Uuid) (input : Option Json)
    (st : SessionState) :
    (session_init fresh input st).2.securitypolicy = st.securitypolicy := by
  unfold session_init
  repeat' split
  all_goals rfl

/-- No public operation ever deletes a `RAW` store entry: a present raw
document stays present after any operation. -/
theorem apply_raw_isSome (op : ApiOp) (σ : SessionState) (w : Uuid) (x : Json)
    (h : alookup w σ.raw = some x) :
    (alookup w (op.apply σ).raw).isSome = true := by
  cases op with
  | initConfig => simp [ApiOp.apply, init_config, h]
  | sessionInit fresh input =>
    cases input with
    | none => simp [ApiOp.apply, session_init, h]
    | some j =>
      cases hp : parseJRequestMap j with
      | none => simp [ApiOp.apply, session_init, hp, h]
      | some jm =>
        simp only [ApiOp.apply, session_init, hp]
        rw [alookup_aset]
        by_cases he : w = fresh <;> simp [he, h]
  | serialize sid => simp [ApiOp.apply, serialize_state_eq, h]
  | matchPolicy m sid => simp [ApiOp.apply, (match_policy_state m sid σ).1, h]
  | tagRequest tg sid => simp [ApiOp.apply, (tag_request_state tg sid σ).1, h]
  | limitCheck l sid => simp [ApiOp.apply, (limit_check_state l sid σ).1, h]
  | aclCheck f sid => simp [ApiOp.apply, acl_check_state_eq, h]
  | contentFilterCheck f sid => simp [ApiOp.apply, content_filter_state_eq, h]
  | flowCheck f sid => simp [ApiOp.apply, (flow_check_state f sid σ).1, h]
  | cleanSession sid => simp [ApiOp.apply, clean_session_state, h]

/-- No operation other than the policy-matching stage ever creates a
`SECURITYPOLICY` entry. -/
theorem apply_securitypolicy_none (op : ApiOp) (σ : SessionState) (w : Uuid)
    (hop : op.isMatchPolicy = false)
    (h : alookup w σ.securitypolicy = none) :
    alookup w (op.apply σ).securitypolicy = none := by
  cases op with
  | initConfig => simpa [ApiOp.apply, init_config] using h
  | sessionInit fresh input =>
    simpa [ApiOp.apply, session_init_state] using h
  | serialize sid => simpa [ApiOp.apply, serialize_state_eq] using h
  | matchPolicy m sid => simp [ApiOp.isMatchPolicy] at hop
  | tagRequest tg sid =>
    simpa [ApiOp.apply, (tag_request_state tg sid σ).2.2] using h
  | limitCheck l sid =>
    simpa [ApiOp.apply, (limit_check_state l sid σ).2.2] using h
  | aclCheck f sid => simpa [ApiOp.apply, acl_check_state_eq] using h
  | contentFilterCheck f sid =>
    simpa [ApiOp.apply, content_filter_state_eq] using h
  | flowCheck f sid =>
    simpa [ApiOp.apply, (flow_check_state f sid σ).2.2] using h
  | cleanSession sid =>
    cases hu : uuidParse sid with
    | none => simpa [ApiOp.apply, clean_session, hu] using h
    | some uuid =>
      by_cases he : w = uuid
      · subst he; simp [ApiOp.apply, clean_session, hu, alookup_aremove_self]
      · simpa [ApiOp.apply, clean_session, hu, alookup_aremove_ne _ he] using h

/-! ## Concrete instances used by witnesses and counterexamples -/

def exPolicy : SecurityPolicy :=
  { name := "entry1"
    acl_profile := { id := "aclid1", name := "aclname1" }
    content_filter_profile := { id := "cfid1", name := "cfname1" }
    acl_active := true
    content_filter_active := true
    limits := [] }

def exPolicy2 : SecurityPolicy := { exPolicy with name := "entry2" }

def exMatcher : RequestInfo → Option (String × SecurityPolicy) :=
  fun _ => some ("hostmap1", exPolicy)

def exMatcher2 : RequestInfo → Option (String × SecurityPolicy) :=
  fun _ => some ("hostmap1", exPolicy2)

def noMatcher : RequestInfo → Option (String × SecurityPolicy) := fun _ => none

def exTagger : RequestInfo → Tags × SimpleDecision := fun _ => (⟨["newtag"]⟩, .pass)

def idLimiter : String → RequestInfo → List Limit → Tags → SimpleDecision × Tags :=
  fun _ _ _ ts => (.pass, ts)

def exAcl : Tags → AclProfile → AclResult := fun _ _ => .allow

def exCf : RequestInfo → ContentFilterProfile → Except Action Unit := fun _ _ => .ok ()

def idFlow : RequestInfo → Tags → Except Unit SimpleDecision × Tags :=
  fun _ ts => (.ok .pass, ts)

/-- attrs of the running example document (two pre-existing tags). -/
def exAttrsFields : List (String × Json) :=
  [("path", .str "/a"), ("method", .str "GET"), ("ip", .str "1.2.3.4"),
   ("query", .str ""), ("uri", .str "/a"),
   ("tags", .obj [("tag1", .null), ("tag2", .num 3)])]

/-- The running example document (host header present). -/
def exDocFields : List (String × Json) :=
  [("headers", .obj [("host", .str "example.com")]),
   ("cookies", .obj []),
   ("args", .obj []),
   ("attrs", .obj exAttrsFields)]

def exDoc : Json := .obj exDocFields

/-- The parse of `exDoc`. -/
def exJm : JRequestMap :=
  { headers := ⟨[("host", "example.com")]⟩
    cookies := ⟨[]⟩
    args := ⟨[]⟩
    attrs :=
      { path := "/a", method := "GET", ip := "1.2.3.4", query := ""
        authority := none, uri := "/a"
        tags := [("tag1", .null), ("tag2", .num 3)] } }

/-- A document with no host header and an authority fallback. -/
def exDocAuth : Json :=
  .obj [("headers", .obj []), ("cookies", .obj []), ("args", .obj []),
        ("attrs", .obj
          [("path", .str "/a"), ("method", .str "GET"), ("ip", .str "1.2.3.4"),
           ("query", .str ""), ("authority", .str "fallback.com"),
           ("uri", .str "/a"), ("tags", .obj [])])]

/-- The parse of `exDocAuth`. -/
def exJmAuth : JRequestMap :=
  { headers := ⟨[]⟩
    cookies := ⟨[]⟩
    args := ⟨[]⟩
    attrs :=
      { path := "/a", method := "GET", ip := "1.2.3.4", query := ""
        authority := some "fallback.com", uri := "/a", tags := [] } }

/-- A document with a host header and an empty tag annotation map. -/
def exDoc0 : Json :=
  .obj [("headers", .obj [("host", .str "example.com")]),
        ("cookies", .obj []), ("args", .obj []),
        ("attrs", .obj
          [("path", .str "/a"), ("method", .str "GET"), ("ip", .str "1.2.3.4"),
           ("query", .str ""), ("uri", .str "/a"), ("tags", .obj [])])]

/-- State after ingesting `exDoc` under id 0. -/
def exState1 : SessionState := (session_init 0 (some exDoc) SessionState.empty).2

/-- State after ingesting `exDoc0` (empty tag set) under id 0. -/
def exState0 : SessionState := (session_init 0 (some exDoc0) SessionState.empty).2

/-- The request info stored for session 0 of `exState1`. -/
def exRinfo1 : RequestInfo := exJm.into_request_info.1

/-! ## Claims -/

/-- Claim C1: for every session id string that parses as a valid
identifier but whose session does not exist — never created by
`session_init`, or already torn down by `clean_session` (which empties the
`RINFOS`, `TAGS` and `SECURITYPOLICY` entries but retains the `RAW`
entry) — every stage operation returns an error of the UnknownSession
kind, rather than succeeding or silently no-op-ing:
`session_serialize_request_map` reports "Could not get RAW" when the `RAW`
entry is also absent (never-created) and "Unknown session id" when it is
retained (torn-down); the other six report "Unknown session id" in both
cases. -/
theorem stage_ops_unknown_session
    (matcher : RequestInfo → Option (String × SecurityPolicy))
    (tagger : RequestInfo → Tags × SimpleDecision)
    (limiter : String → RequestInfo → List Limit → Tags → SimpleDecision × Tags)
    (check_acl : Tags → AclProfile → AclResult)
    (content_filter : RequestInfo → ContentFilterProfile → Except Action Unit)
    (flow : RequestInfo → Tags → Except Unit SimpleDecision × Tags)
    (s : String) (u : Uuid) (st : SessionState)
    (hparse : uuidParse s = some u)
    (hri : alookup u st.rinfos = none)
    (hts : alookup u st.tags = none)
    (hsp : alookup u st.securitypolicy = none) :
    ((session_serialize_request_map s st).1 =
       .error (match alookup u st.raw with
               | none => .rawMissing u
               | some _ => .unknownSession) ∧
     (session_match_securitypolicy matcher s st).1 = .error .unknownSession ∧
     (session_tag_request tagger s st).1 = .error .unknownSession ∧
     (session_limit_check limiter s st).1 = .error .unknownSession ∧
     (session_acl_check check_acl s st).1 = .error .unknownSession ∧
     (session_content_filter_check content_filter s st).1 = .error .unknownSession ∧
     (session_flow_check flow s st).1 = .error .unknownSession) ∧
    (SessionError.rawMissing u).is_unknown_session = true ∧
    SessionError.unknownSession.is_unknown_session = true := by
  refine ⟨⟨?_, ?_, ?_, ?_, ?_, ?_, ?_⟩, rfl, rfl⟩
  · cases hraw : alookup u st.raw with
    | none => simp [session_serialize_request_map, hparse, hraw]
    | some raw => simp [session_serialize_request_map, hparse, hraw, with_tags, hts]
  · simp [session_match_securitypolicy, hparse, hri]
  · simp [session_tag_request, with_request_info, hparse, hri]
  · simp [session_limit_check, with_securitypolicy, hparse, hsp]
  · simp [session_acl_check, with_securitypolicy, hparse, hsp]
  · simp [session_content_filter_check, with_request_info, hparse, hri]
  · simp [session_flow_check, hparse, hri]

theorem stage_ops_unknown_session_witness :
    uuidParse (uuidToString 5) = some 5 ∧
    (session_serialize_request_map (uuidToString 5) SessionState.empty).1 =
      .error (.rawMissing 5) ∧
    (session_acl_check exAcl (uuidToString 5) SessionState.empty).1 =
      .error .unknownSession ∧
    uuidParse (uuidToString 0) = some 0 ∧
    alookup 0 (clean_session (uuidToString 0) exState1).2.rinfos = none ∧
    alookup 0 (clean_session (uuidToString 0) exState1).2.raw = some exDoc ∧
    (session_serialize_request_map (uuidToString 0)
        (clean_session (uuidToString 0) exState1).2).1 = .error .unknownSession ∧
    (session_acl_check exAcl (uuidToString 0)
        (clean_session (uuidToString 0) exState1).2).1 = .error .unknownSession :=
  ⟨rfl,
   (stage_ops_unknown_session exMatcher exTagger idLimiter exAcl exCf idFlow
     (uuidToString 5) 5 SessionState.empty rfl rfl rfl rfl).1.1,
   (stage_ops_unknown_session exMatcher exTagger idLimiter exAcl exCf idFlow
     (uuidToString 5) 5 SessionState.empty rfl rfl rfl rfl).1.2.2.2.2.1,
   rfl, rfl, rfl,
   (stage_ops_unknown_session exMatcher exTagger idLimiter exAcl exCf idFlow
     (uuidToString 0) 0 (clean_session (uuidToString 0) exState1).2
     rfl rfl rfl rfl).1.1,
   (stage_ops_unknown_session exMatcher exTagger idLimiter exAcl exCf idFlow
     (uuidToString 0) 0 (clean_session (uuidToString 0) exState1).2
     rfl rfl rfl rfl).1.2.2.2.2.1⟩

/-- Claim C3: for every ingested document the stored request context's
resolved host is the `host` header when present, else `attrs.authority`
when present, else "unknown". -/
theorem resolved_host_precedence
    (fresh : Uuid) (j : Json) (jm : JRequestMap) (st : SessionState)
    (hp : parseJRequestMap j = some jm) :
    (session_init fresh (some j) st).1 = .ok (uuidToString fresh) ∧
    alookup fresh (session_init fresh (some j) st).2.rinfos =
      some jm.into_request_info.1 ∧
    jm.into_request_info.1.rinfo.host =
      (match jm.headers.get "host" with
       | some h => h
       | none =>
         match jm.attrs.authority with
         | some a => a
         | none => "unknown") := by
  refine ⟨?_, ?_, ?_⟩
  · simp [session_init, hp]
  · simp [session_init, hp, alookup_aset_self]
  · unfold JRequestMap.into_request_info
    cases hh : jm.headers.get "host" with
    | some h => simp [hh]
    | none => cases ha : jm.attrs.authority <;> simp [hh, ha]

theorem resolved_host_precedence_witness :
    parseJRequestMap exDocAuth = some exJmAuth ∧
    exJmAuth.into_request_info.1.rinfo.host = "fallback.com" ∧
    parseJRequestMap exDoc = some exJm ∧
    exJm.into_request_info.1.rinfo.host = "example.com" :=
  ⟨rfl,
   (resolved_host_precedence 0 exDocAuth exJmAuth SessionState.empty rfl).2.2,
   rfl,
   (resolved_host_precedence 0 exDoc exJm SessionState.empty rfl).2.2⟩

/-- Claim C4: when the input fails to parse as an encoded request document
(not valid JSON, or missing required fields), `session_init` returns an
error, hands out no session id, and leaves all four stores exactly as they
were. -/
theorem session_init_rejects_malformed
    (fresh : Uuid) (input : Option Json) (st : SessionState)
    (h : input.bind parseJRequestMap = none) :
    session_init fresh input st = (.error .malformedDocument, st) := by
  cases input with
  | none => rfl
  | some j =>
    simp only [Option.bind] at h
    simp [session_init, h]

theorem session_init_rejects_malformed_witness :
    (Option.bind (some (Json.obj [])) parseJRequestMap = none) ∧
    session_init 3 (some (Json.obj [])) SessionState.empty =
      (.error .malformedDocument, SessionState.empty) :=
  ⟨rfl, session_init_rejects_malformed 3 (some (Json.obj [])) SessionState.empty rfl⟩

/-- Claim C2: serializing a freshly ingested valid document, before any
other stage runs, returns exactly the original document with `attrs.tags`
replaced by an object mapping each of the document's own tag names to the
number 1, every other field of the document and of `attrs` unchanged. -/
theorem serialize_after_init_roundtrip
    (fresh : Uuid) (st : SessionState)
    (fields attrs_o : List (String × Json)) (jm : JRequestMap)
    (hp : parseJRequestMap (.obj fields) = some jm)
    (hattrs : alookup "attrs" fields = some (.obj attrs_o)) :
    (session_serialize_request_map (uuidToString fresh)
        (session_init fresh (some (.obj fields)) st).2).1 =
      .ok (.obj (aset "attrs"
        (.obj (aset "tags"
          (.obj ((Tags.from_slice (jm.attrs.tags.map (fun kv => kv.1))).toList.map
            (fun k => (k, Json.num 1)))) attrs_o)) fields)) ∧
    (∀ (v : Json) (k : String), k ≠ "attrs" →
      alookup k (aset "attrs" v fields) = alookup k fields) ∧
    (∀ (v : Json) (k : String), k ≠ "tags" →
      alookup k (aset "tags" v attrs_o) = alookup k attrs_o) := by
  refine ⟨?_, fun v k hk => alookup_aset_ne v fields hk,
    fun v k hk => alookup_aset_ne v attrs_o hk⟩
  simp [session_init, hp, session_serialize_request_map, uuidParse_uuidToString,
    alookup_aset_self, with_tags, update_tags, hattrs, Tags.as_hash_ref,
    JRequestMap.into_request_info]

theorem serialize_after_init_roundtrip_witness :
    parseJRequestMap exDoc = some exJm ∧
    alookup "attrs" exDocFields = some (.obj exAttrsFields) ∧
    (session_serialize_request_map (uuidToString 0)
        (session_init 0 (some exDoc) SessionState.empty).2).1 =
      .ok (.obj (aset "attrs"
        (.obj (aset "tags" (.obj [("tag1", .num 1), ("tag2", .num 1)])
          exAttrsFields)) exDocFields)) :=
  ⟨rfl, rfl,
   (serialize_after_init_roundtrip 0 SessionState.empty exDocFields
     exAttrsFields exJm rfl rfl).1⟩

/-- The parse of `exDoc0`. -/
def exJm0 : JRequestMap :=
  { headers := ⟨[("host", "example.com")]⟩
    cookies := ⟨[]⟩
    args := ⟨[]⟩
    attrs :=
      { path := "/a", method := "GET", ip := "1.2.3.4", query := ""
        authority := none, uri := "/a", tags := [] } }

/-- The request info stored for session 0 of `exState0`. -/
def exRinfo0 : RequestInfo := exJm0.into_request_info.1

/-- Claim C6: `clean_session` never fails on a session id (a string that
parses as an identifier), whether or not a session exists for it, and a
second call returns the same success and leaves the stores exactly as the
first call left them (the model is a total function, so no panic is
possible). -/
theorem clean_session_idempotent
    (s : String) (u : Uuid) (st : SessionState)
    (hparse : uuidParse s = some u) :
    (clean_session s st).1 = .ok () ∧
    clean_session s (clean_session s st).2 = (.ok (), (clean_session s st).2) := by
  constructor
  · simp [clean_session, hparse]
  · simp [clean_session, hparse, aremove_aremove]

theorem clean_session_idempotent_witness :
    uuidParse (uuidToString 0) = some 0 ∧
    (clean_session (uuidToString 0) exState1).1 = .ok () ∧
    (clean_session (uuidToString 1) SessionState.empty).1 = .ok () :=
  ⟨rfl, (clean_session_idempotent (uuidToString 0) 0 exState1 rfl).1,
   (clean_session_idempotent (uuidToString 1) 1 SessionState.empty rfl).1⟩

/-- Claim C5 counterexample: on a session created by `session_init` whose
policy has not yet been matched (`exState1`, id 0), `session_acl_check`
fails with exactly the same "Unknown session id" error that an id with no
session at all (id 1) receives — the code produces no distinct
PolicyNotYetMatched error. -/
theorem policy_missing_error_not_distinct_cex :
    alookup 0 exState1.rinfos = some exRinfo1 ∧
    alookup 0 exState1.securitypolicy = none ∧
    (session_acl_check exAcl (uuidToString 0) exState1).1 = .error .unknownSession ∧
    alookup 1 exState1.rinfos = none ∧
    (session_acl_check exAcl (uuidToString 1) exState1).1 = .error .unknownSession ∧
    (session_acl_check exAcl (uuidToString 0) exState1).1 =
      (session_acl_check exAcl (uuidToString 1) exState1).1 :=
  ⟨rfl, rfl, rfl, rfl, rfl, rfl⟩

/-- Claim C5 (amended): invoking the limit, ACL or content-filter stage on
a session created by `session_init` before a successful policy match
returns the explicit "Unknown session id" error — never a silent pass —
but this error is the same error an absent session id receives, not a
distinct PolicyNotYetMatched error. -/
theorem checks_before_match_fail_explicitly
    (limiter : String → RequestInfo → List Limit → Tags → SimpleDecision × Tags)
    (check_acl : Tags → AclProfile → AclResult)
    (content_filter : RequestInfo → ContentFilterProfile → Except Action Unit)
    (s : String) (u : Uuid) (st : SessionState) (ri : RequestInfo) (ts : Tags)
    (hparse : uuidParse s = some u)
    (hri : alookup u st.rinfos = some ri)
    (hts : alookup u st.tags = some ts)
    (hsp : alookup u st.securitypolicy = none) :
    (session_limit_check limiter s st).1 = .error .unknownSession ∧
    (session_acl_check check_acl s st).1 = .error .unknownSession ∧
    (session_content_filter_check content_filter s st).1 = .error .unknownSession := by
  refine ⟨?_, ?_, ?_⟩
  · simp [session_limit_check, with_securitypolicy, hparse, hsp]
  · simp [session_acl_check, with_securitypolicy, hparse, hsp]
  · simp [session_content_filter_check, with_request_info, with_securitypolicy,
      hparse, hri, hsp]

theorem checks_before_match_fail_explicitly_witness :
    uuidParse (uuidToString 0) = some 0 ∧
    (session_limit_check idLimiter (uuidToString 0) exState1).1 =
      .error .unknownSession :=
  ⟨rfl,
   (checks_before_match_fail_explicitly idLimiter exAcl exCf (uuidToString 0) 0
     exState1 exRinfo1 ⟨["tag1", "tag2"]⟩ rfl rfl rfl rfl).1⟩

/-- Claim C7 counterexample: a successful policy match on a session with
an empty tag set writes six derived tags, not five as the claim counts. -/
theorem match_writes_six_tags_cex :
    alookup 0 (session_match_securitypolicy exMatcher (uuidToString 0) exState0).2.tags =
      some ⟨["securitypolicy:hostmap1", "securitypolicy-entry:entry1",
             "aclid:aclid1", "aclname:aclname1",
             "contentfilterid:cfid1", "contentfiltername:cfname1"]⟩ ∧
    ¬ (["securitypolicy:hostmap1", "securitypolicy-entry:entry1",
        "aclid:aclid1", "aclname:aclname1",
        "contentfilterid:cfid1", "contentfiltername:cfname1"].length = 5) :=
  ⟨rfl, by decide⟩

/-- Claim C7 (amended): a successful policy match writes the matched
policy into the MatchedPolicy store and inserts exactly six derived tags
(the claim's count of five is off by one): the qualified policy-group
name, policy entry name, ACL profile id, ACL profile name, content-filter
profile id and content-filter profile name. -/
theorem match_securitypolicy_success_effects
    (matcher : RequestInfo → Option (String × SecurityPolicy))
    (s : String) (u : Uuid) (st : SessionState) (ri : RequestInfo) (ts : Tags)
    (hostmap_name : String) (pol : SecurityPolicy)
    (hparse : uuidParse s = some u)
    (hri : alookup u st.rinfos = some ri)
    (hts : alookup u st.tags = some ts)
    (hm : matcher ri = some (hostmap_name, pol)) :
    (session_match_securitypolicy matcher s st).1 =
      .ok { name := pol.name
            acl_profile := pol.acl_profile.id
            content_filter_profile := pol.content_filter_profile.id
            acl_active := pol.acl_active
            content_filter_active := pol.content_filter_active
            limit_ids := pol.limits.map (fun l => l.id)
            securitypolicy := hostmap_name } ∧
    alookup u (session_match_securitypolicy matcher s st).2.securitypolicy =
      some pol ∧
    alookup u (session_match_securitypolicy matcher s st).2.tags =
      some ((((((ts.insert_qualified "securitypolicy" hostmap_name
          ).insert_qualified "securitypolicy-entry" pol.name
          ).insert_qualified "aclid" pol.acl_profile.id
          ).insert_qualified "aclname" pol.acl_profile.name
          ).insert_qualified "contentfilterid" pol.content_filter_profile.id
          ).insert_qualified "contentfiltername" pol.content_filter_profile.name) ∧
    (∀ t, t ∈ ((((((ts.insert_qualified "securitypolicy" hostmap_name
          ).insert_qualified "securitypolicy-entry" pol.name
          ).insert_qualified "aclid" pol.acl_profile.id
          ).insert_qualified "aclname" pol.acl_profile.name
          ).insert_qualified "contentfilterid" pol.content_filter_profile.id
          ).insert_qualified "contentfiltername"
            pol.content_filter_profile.name).toList ↔
        (t ∈ ts.toList ∨
         t = "securitypolicy" ++ ":" ++ hostmap_name ∨
         t = "securitypolicy-entry" ++ ":" ++ pol.name ∨
         t = "aclid" ++ ":" ++ pol.acl_profile.id ∨
         t = "aclname" ++ ":" ++ pol.acl_profile.name ∨
         t = "contentfilterid" ++ ":" ++ pol.content_filter_profile.id ∨
         t = "contentfiltername" ++ ":" ++ pol.content_filter_profile.name)) := by
  refine ⟨?_, ?_, ?_, ?_⟩
  · simp [session_match_securitypolicy, hparse, hri, hm, mapResult,
      with_tags_mut, hts]
  · simp [session_match_securitypolicy, hparse, hri, hm, mapResult,
      with_tags_mut, hts, alookup_aset_self]
  · simp [session_match_securitypolicy, hparse, hri, hm, mapResult,
      with_tags_mut, hts, alookup_aset_self]
  · intro t
    simp only [Tags.insert_qualified, Tags.mem_insert, or_assoc]

theorem match_securitypolicy_success_effects_witness :
    uuidParse (uuidToString 0) = some 0 ∧
    exMatcher exRinfo0 = some ("hostmap1", exPolicy) ∧
    (session_match_securitypolicy exMatcher (uuidToString 0) exState0).1 =
      .ok { name := "entry1", acl_profile := "aclid1",
            content_filter_profile := "cfid1", acl_active := true,
            content_filter_active := true, limit_ids := [],
            securitypolicy := "hostmap1" } :=
  ⟨rfl, rfl,
   (match_securitypolicy_success_effects exMatcher (uuidToString 0) 0 exState0
     exRinfo0 ⟨[]⟩ "hostmap1" exPolicy rfl rfl rfl rfl).1⟩

/-- Claim C8 counterexample: the MatchedPolicy entry is not written at
most once — a second successful `session_match_securitypolicy` (here
under a changed configuration, modelled by a different matcher) overwrites
the previously stored policy with a different one. -/
theorem matched_policy_overwritten_cex :
    alookup 0 exState0.securitypolicy = none ∧
    alookup 0 (session_match_securitypolicy exMatcher
        (uuidToString 0) exState0).2.securitypolicy = some exPolicy ∧
    alookup 0 (session_match_securitypolicy exMatcher2 (uuidToString 0)
        (session_match_securitypolicy exMatcher
          (uuidToString 0) exState0).2).2.securitypolicy = some exPolicy2 ∧
    exPolicy ≠ exPolicy2 :=
  ⟨rfl, rfl, rfl, by decide⟩

/-- Claim C8 (amended): the MatchedPolicy entry is absent until a
successful `session_match_securitypolicy`: no other operation ever
creates it, and a match attempt that finds no configured policy for the
request returns the "No matching Security Policy" error and leaves the
whole state (the MatchedPolicy store included) untouched.  The entry is
not write-once, however: a later successful match overwrites it. -/
theorem matched_policy_write_discipline
    (op : ApiOp) (σ : SessionState) (w : Uuid)
    (matcher : RequestInfo → Option (String × SecurityPolicy))
    (s : String) (u : Uuid) (st : SessionState) (ri : RequestInfo)
    (hop : op.isMatchPolicy = false)
    (hw : alookup w σ.securitypolicy = none)
    (hparse : uuidParse s = some u)
    (hri : alookup u st.rinfos = some ri)
    (hm : matcher ri = none) :
    alookup w (op.apply σ).securitypolicy = none ∧
    session_match_securitypolicy matcher s st = (.error .noMatchingPolicy, st) := by
  refine ⟨apply_securitypolicy_none op σ w hop hw, ?_⟩
  simp [session_match_securitypolicy, hparse, hri, hm]

theorem matched_policy_write_discipline_witness :
    uuidParse (uuidToString 0) = some 0 ∧
    session_match_securitypolicy noMatcher (uuidToString 0) exState0 =
      (.error .noMatchingPolicy, exState0) ∧
    alookup 0 ((ApiOp.tagRequest exTagger (uuidToString 0)).apply
      exState0).securitypolicy = none :=
  ⟨rfl,
   (matched_policy_write_discipline (ApiOp.tagRequest exTagger (uuidToString 0))
     exState0 0 noMatcher (uuidToString 0) 0 exState0 exRinfo0
     rfl rfl rfl rfl rfl).2,
   (matched_policy_write_discipline (ApiOp.tagRequest exTagger (uuidToString 0))
     exState0 0 noMatcher (uuidToString 0) 0 exState0 exRinfo0
     rfl rfl rfl rfl rfl).1⟩

set_option maxHeartbeats 1000000 in
theorem match_policy_hasTag
    (matcher : RequestInfo → Option (String × SecurityPolicy))
    (s : String) (st : SessionState) (v : Uuid) (t : String)
    (ht : hasTag st v t) :
    hasTag (session_match_securitypolicy matcher s st).2 v t := by
  unfold session_match_securitypolicy
  repeat' split
  · exact ht
  · exact ht
  · exact ht
  · simp only [mapResult_state]
    exact with_tags_mut_hasTag _ _ _
      (fun ts x hx =>
        Tags.mem_of_mem_insert _ _ _ (Tags.mem_of_mem_insert _ _ _
          (Tags.mem_of_mem_insert _ _ _ (Tags.mem_of_mem_insert _ _ _
            (Tags.mem_of_mem_insert _ _ _
              (Tags.mem_of_mem_insert _ _ _ hx)))))) v t ht

theorem tag_request_hasTag
    (tagger : RequestInfo → Tags × SimpleDecision)
    (s : String) (st : SessionState) (v : Uuid) (t : String)
    (ht : hasTag st v t) :
    hasTag (session_tag_request tagger s st).2 v t := by
  unfold session_tag_request
  repeat' split
  · exact ht
  · exact ht
  · simp only [mapResult_state]
    exact with_tags_mut_hasTag _ _ _
      (fun ts x hx => Tags.mem_extend ts _ x hx) v t ht

theorem limit_check_hasTag
    (limiter : String → RequestInfo → List Limit → Tags → SimpleDecision × Tags)
    (s : String) (st : SessionState) (v : Uuid) (t : String)
    (hlim : ∀ name ri ls ts, ∀ x ∈ ts.toList, x ∈ (limiter name ri ls ts).2.toList)
    (ht : hasTag st v t) :
    hasTag (session_limit_check limiter s st).2 v t := by
  unfold session_limit_check
  repeat' split
  · exact ht
  · exact ht
  · exact ht
  · exact ht
  · simp only [mapResult_state]
    exact with_tags_mut_hasTag _ _ _
      (fun ts x hx => hlim _ _ _ ts x hx) v t ht

theorem flow_check_hasTag
    (flow : RequestInfo → Tags → Except Unit SimpleDecision × Tags)
    (s : String) (st : SessionState) (v : Uuid) (t : String)
    (hflow : ∀ ri ts, ∀ x ∈ ts.toList, x ∈ (flow ri ts).2.toList)
    (ht : hasTag st v t) :
    hasTag (session_flow_check flow s st).2 v t := by
  unfold session_flow_check
  repeat' split
  · exact ht
  · exact ht
  · simp only [mapResult_state]
    exact with_tags_mut_hasTag _ _ _
      (fun ts x hx => hflow _ ts x hx) v t ht

/-- Claim C9: tags accumulate monotonically: whenever a session carries a
tag, it still carries it after any of the six stages (match, tag, limit,
ACL, content filter, flow), run from any state and in any order — the
stages themselves only insert or extend; for the limit and flow stages,
which hand the mutable tag set to an external collaborator, the
collaborator is assumed additive (it "may itself tag the request"). -/
theorem tags_monotone
    (matcher : RequestInfo → Option (String × SecurityPolicy))
    (tagger : RequestInfo → Tags × SimpleDecision)
    (limiter : String → RequestInfo → List Limit → Tags → SimpleDecision × Tags)
    (check_acl : Tags → AclProfile → AclResult)
    (content_filter : RequestInfo → ContentFilterProfile → Except Action Unit)
    (flow : RequestInfo → Tags → Except Unit SimpleDecision × Tags)
    (s : String) (st : SessionState) (v : Uuid) (t : String)
    (hlim : ∀ name ri ls ts, ∀ x ∈ ts.toList, x ∈ (limiter name ri ls ts).2.toList)
    (hflow : ∀ ri ts, ∀ x ∈ ts.toList, x ∈ (flow ri ts).2.toList)
    (ht : hasTag st v t) :
    hasTag (session_match_securitypolicy matcher s st).2 v t ∧
    hasTag (session_tag_request tagger s st).2 v t ∧
    hasTag (session_limit_check limiter s st).2 v t ∧
    hasTag (session_acl_check check_acl s st).2 v t ∧
    hasTag (session_content_filter_check content_filter s st).2 v t ∧
    hasTag (session_flow_check flow s st).2 v t := by
  refine ⟨match_policy_hasTag matcher s st v t ht,
    tag_request_hasTag tagger s st v t ht,
    limit_check_hasTag limiter s st v t hlim ht, ?_, ?_,
    flow_check_hasTag flow s st v t hflow ht⟩
  · rw [acl_check_state_eq]
    exact ht
  · rw [content_filter_state_eq]
    exact ht

theorem tags_monotone_witness :
    hasTag exState1 0 "tag1" ∧
    hasTag (session_tag_request exTagger (uuidToString 0) exState1).2 0 "tag1" :=
  ⟨⟨⟨["tag1", "tag2"]⟩, rfl, by decide⟩,
   (tags_monotone exMatcher exTagger idLimiter exAcl exCf idFlow (uuidToString 0)
     exState1 0 "tag1" (fun _ _ _ _ x hx => hx) (fun _ _ x hx => hx)
     ⟨⟨["tag1", "tag2"]⟩, rfl, by decide⟩).2.1⟩

/-- Claim C10 counterexample (refuting the removability part): no
operation of the public API ever removes a `RAW` store entry — in
particular, after `clean_session` the torn-down session's raw document is
still present. -/
theorem raw_entry_never_removed_cex :
    (¬ ∃ (op : ApiOp) (σ : SessionState) (w : Uuid) (x : Json),
        alookup w σ.raw = some x ∧ alookup w (op.apply σ).raw = none) ∧
    alookup 0 (clean_session (uuidToString 0) exState1).2.raw = some exDoc := by
  constructor
  · rintro ⟨op, σ, w, x, h1, h2⟩
    have h3 := apply_raw_isSome op σ w x h1
    rw [h2] at h3
    simp at h3
  · rfl

/-- Claim C10 (amended): `clean_session` removes exactly the session's
entries from the RequestContext, TagSet and MatchedPolicy stores and
changes nothing else (other sessions' entries and the whole RAW store are
untouched).  The RawDocument entry is not removable: no public operation
removes a RAW entry. -/
theorem clean_session_frame
    (s : String) (u : Uuid) (st : SessionState)
    (hparse : uuidParse s = some u) :
    (clean_session s st).1 = .ok () ∧
    alookup u (clean_session s st).2.rinfos = none ∧
    alookup u (clean_session s st).2.tags = none ∧
    alookup u (clean_session s st).2.securitypolicy = none ∧
    (∀ v, v ≠ u →
      alookup v (clean_session s st).2.rinfos = alookup v st.rinfos ∧
      alookup v (clean_session s st).2.tags = alookup v st.tags ∧
      alookup v (clean_session s st).2.securitypolicy =
        alookup v st.securitypolicy) ∧
    (clean_session s st).2.raw = st.raw ∧
    (∀ (op : ApiOp) (σ : SessionState) (w : Uuid) (x : Json),
      alookup w σ.raw = some x → (alookup w (op.apply σ).raw).isSome = true) := by
  refine ⟨?_, ?_, ?_, ?_, ?_, ?_, fun op σ w x h => apply_raw_isSome op σ w x h⟩
  · simp [clean_session, hparse]
  · simp [clean_session, hparse, alookup_aremove_self]
  · simp [clean_session, hparse, alookup_aremove_self]
  · simp [clean_session, hparse, alookup_aremove_self]
  · intro v hv
    refine ⟨?_, ?_, ?_⟩ <;>
      simp [clean_session, hparse, alookup_aremove_ne _ hv]
  · simp [clean_session, hparse]

theorem clean_session_frame_witness :
    uuidParse (uuidToString 0) = some 0 ∧
    alookup 0 (clean_session (uuidToString 0) exState1).2.rinfos = none ∧
    (clean_session (uuidToString 0) exState1).2.raw = exState1.raw :=
  ⟨rfl, (clean_session_frame (uuidToString 0) 0 exState1 rfl).2.1,
   (clean_session_frame (uuidToString 0) 0 exState1 rfl).2.2.2.2.2.1⟩

end Curiefense
